import Mathlib

/-!
Shallow embedding of `scripts/analyze_logs.py` (RAG Stack Ingestion Script,
V1.1) and proofs about its behaviour.

The script is a single-file command-line utility: it resolves two
configuration strings from the environment, computes a collection path,
constructs a Firestore client, and upserts one example log entry, printing
status lines.  External effects (environment reads, the wall clock, the
store client and the behaviour of `doc_ref.set`) are passed in as explicit
parameters; console output and store writes are collected in result
structures.
-/

namespace AnalyzeLogs

/-- JSON-like runtime values: the payload dictionaries of the script hold
strings, numbers, nested objects, arrays, and the Firestore server-timestamp
sentinel (`firestore.SERVER_TIMESTAMP`). Numbers carry an exact rational
literal; the script never computes with them, it only passes them through. -/
inductive Value where
  | str : String → Value
  | num : Rat → Value
  | obj : List (String × Value) → Value
  | arr : List Value → Value
  | serverTimestamp : Value
  deriving Repr

/-- A Python dict with string keys, as an association list.  The dict
literals appearing in the script have pairwise distinct keys, so first-match
lookup agrees with Python dict lookup. -/
abbrev Dict := List (String × Value)

/-- `d.get(k)` / `k in d`: first binding of key `k`, if any. -/
def dictGet (d : Dict) (k : String) : Option Value :=
  (d.find? (fun p => p.fst == k)).map Prod.snd

/-- The process environment, as read by `os.getenv`. -/
abbrev Env := String → Option String

/-- Line 11: `APP_ID = os.getenv("__app_id", "default-app-id")`. -/
def APP_ID (env : Env) : String := (env "__app_id").getD "default-app-id"

/-- Line 12: `USER_ID = os.getenv("USER_ID", "jasonbender-c3x")`. -/
def USER_ID (env : Env) : String := (env "USER_ID").getD "jasonbender-c3x"

/-- Line 16: the f-string computing the collection path from `APP_ID`. -/
def COLLECTION_PATH (env : Env) : String :=
  "artifacts/" ++ APP_ID env ++ "/public/data/knowledge_buckets"

/-- A Python exception of the script's own making.  The only one the script
itself can raise is a `NameError` for an unbound name. -/
inductive PyError where
  | nameError : String → PyError
  deriving Repr, DecidableEq

/-- The names bound at module scope of `scripts/analyze_logs.py`: the three
module-level imports (lines 6-8) and the five module-level assignments and
function definitions.  `from google.cloud import firestore` appears only
inside the body of `get_firestore_client` (line 24), where it creates a
function-local binding; it binds nothing at module scope. -/
def moduleScopeNames : List String :=
  ["os", "sys", "datetime",
   "APP_ID", "USER_ID", "COLLECTION_PATH",
   "get_firestore_client", "ingest_log_entry", "main"]

/-- The local names of `ingest_log_entry` that are bound before line 55
evaluates `firestore.SERVER_TIMESTAMP`: the two parameters and the two
assignments of lines 42 and 45 (`payload` itself is still being assigned). -/
def ingestLocalNames : List String :=
  ["db", "entry_data", "message_id", "doc_ref"]

/-- The Python builtins the script touches; `firestore` is not a builtin. -/
def builtinNames : List String :=
  ["print", "len", "__import__"]

/-- Resolution of the name `firestore` at its use site, line 55, inside
`ingest_log_entry`: Python looks it up in the local scope, then the module
(global) scope — there is no enclosing function scope — then the builtins,
and raises `NameError` when all three miss. -/
def resolveFirestoreInIngest : Except PyError Unit :=
  if ingestLocalNames.contains "firestore"
      || moduleScopeNames.contains "firestore"
      || builtinNames.contains "firestore" then
    Except.ok ()
  else
    Except.error (PyError.nameError "firestore")

/-- The two readings of the wall clock that one call of `ingest_log_entry`
performs: `str(datetime.now().timestamp())` (line 42) and
`datetime.now().isoformat()` (line 54). -/
structure Clock where
  timestampRepr : String
  isoformat : String
  deriving Repr, DecidableEq

/-- Line 42: `entry_data.get('message_id', f"msg_{datetime.now().timestamp()}")`. -/
def messageIdOf (clock : Clock) (entry_data : Dict) : Value :=
  (dictGet entry_data "message_id").getD (Value.str ("msg_" ++ clock.timestampRepr))

/-- Python `str()` as the script's f-strings apply it to the
document id; the ids occurring in this development are all strings. -/
def pyStr : Value → String
  | Value.str s => s
  | v => toString (repr v)

/-- Line 45: the document path addressed by
`db.collection(COLLECTION_PATH).document(message_id)`. -/
def docPath (env : Env) (message_id : Value) : String :=
  COLLECTION_PATH env ++ "/" ++ pyStr message_id

/-- The behaviour of the store on a `doc_ref.set(payload)` call at a given
document path: `none` = the write succeeds, `some e` = the client raises an
exception rendering as `e`. -/
abbrev SetBehaviour := String → Dict → Option String

/-- Observable result of one `ingest_log_entry` call: either a normal
boolean return or an uncaught exception, together with the lines printed and
the `(path, payload)` writes performed. -/
structure IngestResult where
  outcome : Except PyError Bool
  printed : List String
  writes : List (String × Dict)
  deriving Repr

/-- Lines 34-68, `ingest_log_entry(db, entry_data)`.  The payload dict
literal of lines 48-56 evaluates `firestore.SERVER_TIMESTAMP` for its
`indexed_at` value; when the name `firestore` does not resolve (see
`resolveFirestoreInIngest`) the dict literal raises `NameError` and the call
aborts before the `try` block of lines 62-68 is reached.  When the name does
resolve, the payload carries the six client-set fields plus `indexed_at`,
gains a `vector` field exactly when the entry has one (lines 59-60), and the
`try` block performs the write, printing the success line of line 64 or the
failure line of line 67. -/
def ingest_log_entry (setBehaviour : SetBehaviour) (env : Env) (clock : Clock)
    (entry_data : Dict) : IngestResult :=
  let message_id := messageIdOf clock entry_data
  let doc_ref := docPath env message_id
  match resolveFirestoreInIngest with
  | Except.error e =>
      { outcome := Except.error e, printed := [], writes := [] }
  | Except.ok _ =>
      let payload : Dict :=
        [("user_id", Value.str (USER_ID env)),
         ("app_id", Value.str (APP_ID env)),
         ("message_id", message_id),
         ("content", (dictGet entry_data "content").getD (Value.str "")),
         ("metadata", (dictGet entry_data "metadata").getD (Value.obj [])),
         ("timestamp", Value.str clock.isoformat),
         ("indexed_at", Value.serverTimestamp)]
      let payload :=
        match dictGet entry_data "vector" with
        | some v => payload ++ [("vector", v)]
        | none => payload
      match setBehaviour doc_ref payload with
      | none =>
          { outcome := Except.ok true,
            printed := ["✓ Ingested: " ++ pyStr message_id ++ " to " ++ COLLECTION_PATH env],
            writes := [(doc_ref, payload)] }
      | some e =>
          { outcome := Except.ok false,
            printed := ["✗ Failed to ingest " ++ pyStr message_id ++ ": " ++ e],
            writes := [] }

/-- The three ways client construction (lines 23-32) can go: the import of
the client library fails, `firestore.Client()` raises with some message, or
a client is obtained. -/
inductive ClientInit where
  | importError : ClientInit
  | initError : String → ClientInit
  | ok : ClientInit
  deriving Repr, DecidableEq

/-- Lines 18-32, `get_firestore_client()`: on `ImportError` print the two
remediation lines and `sys.exit(1)`; on any other exception print the error
line and `sys.exit(1)`; otherwise return the client.  The error value pairs
the exit code with the lines printed before exiting. -/
def get_firestore_client (c : ClientInit) : Except (Nat × List String) Unit :=
  match c with
  | ClientInit.importError =>
      Except.error (1, ["ERROR: google-cloud-firestore not installed",
                        "Run: pip install google-cloud-firestore"])
  | ClientInit.initError e =>
      Except.error (1, ["ERROR: Failed to initialize Firestore client: " ++ e])
  | ClientInit.ok => Except.ok ()

/-- `"=" * 60`, the separator line of the banner and the summary. -/
def sepLine : String := String.mk (List.replicate 60 (Char.ofNat 61))

/-- Lines 74-80: the banner printed at the start of `main`. -/
def banner (env : Env) : List String :=
  [sepLine,
   "RAG Stack Ingestion Script (V1.1)",
   sepLine,
   "App ID: " ++ APP_ID env,
   "User ID: " ++ USER_ID env,
   "Collection Path: " ++ COLLECTION_PATH env,
   sepLine]

/-- Lines 87-93: the fixed example batch, a single entry. -/
def example_entries : List Dict :=
  [[("message_id", Value.str "example_001"),
    ("content", Value.str "Sample log entry for testing"),
    ("metadata", Value.obj [("source", Value.str "test"),
                            ("type", Value.str "example")])]]

/-- Accumulated observations of the loop of lines 95-98: successes counted,
lines printed, writes performed, and the exception (if any) that escaped an
`ingest_log_entry` call and aborted the loop. -/
structure BatchResult where
  successes : Nat
  printed : List String
  writes : List (String × Dict)
  raised : Option PyError
  deriving Repr

/-- The loop of lines 95-98: call `ingest_log_entry` on each entry in order,
counting `True` returns; an exception escaping a call propagates and stops
the loop (and, in `main`, the whole process). -/
def processEntries (setBehaviour : SetBehaviour) (env : Env) (clock : Clock) :
    List Dict → BatchResult
  | [] => { successes := 0, printed := [], writes := [], raised := none }
  | e :: rest =>
    let r := ingest_log_entry setBehaviour env clock e
    match r.outcome with
    | Except.error err =>
        { successes := 0, printed := r.printed, writes := r.writes,
          raised := some err }
    | Except.ok b =>
        let tailRes := processEntries setBehaviour env clock rest
        { successes := (if b then 1 else 0) + tailRes.successes,
          printed := r.printed ++ tailRes.printed,
          writes := r.writes ++ tailRes.writes,
          raised := tailRes.raised }

/-- How a process run ends: an explicit `sys.exit(code)`, an uncaught
exception (the interpreter then exits with a non-zero status), or falling
off the end of `main` (exit status 0). -/
inductive ProcOutcome where
  | exited : Nat → ProcOutcome
  | uncaught : PyError → ProcOutcome
  | completed : ProcOutcome
  deriving Repr, DecidableEq

/-- Observable result of one process run: everything printed, every write
performed, and how the process ended. -/
structure RunResult where
  printed : List String
  writes : List (String × Dict)
  outcome : ProcOutcome
  deriving Repr

/-- Lines 70-102, `main()`: print the banner, construct the client
(terminating with its exit code on failure), run the loop over
`example_entries`, and — unless an exception escaped the loop — print the
summary block with `<successes>/<total>`. -/
def main (c : ClientInit) (setBehaviour : SetBehaviour) (env : Env)
    (clock : Clock) : RunResult :=
  match get_firestore_client c with
  | Except.error (code, msgs) =>
      { printed := banner env ++ msgs, writes := [],
        outcome := ProcOutcome.exited code }
  | Except.ok _ =>
      let b := processEntries setBehaviour env clock example_entries
      match b.raised with
      | some e =>
          { printed := banner env ++ b.printed, writes := b.writes,
            outcome := ProcOutcome.uncaught e }
      | none =>
          { printed := banner env ++ b.printed ++
              [sepLine,
               "Ingestion complete: " ++ toString b.successes ++ "/" ++
                 toString example_entries.length ++ " successful",
               sepLine],
            writes := b.writes, outcome := ProcOutcome.completed }

/-! Concrete inputs used to evaluate the model. -/

/-- An environment with both variables unset. -/
def envEmpty : Env := fun _ => none

/-- An environment binding only `__app_id`, to `"myapp"`. -/
def envApp : Env := fun k => if k == "__app_id" then some "myapp" else none

/-- A concrete clock reading. -/
def clock0 : Clock :=
  { timestampRepr := "1700000000.0", isoformat := "2023-11-14T22:13:20" }

/-- A second, later clock reading. -/
def clock1 : Clock :=
  { timestampRepr := "1700000001.0", isoformat := "2023-11-14T22:13:21" }

/-- A store on which every `set` succeeds. -/
def setNeverRaises : SetBehaviour := fun _ _ => none

/-- A store on which every `set` raises an exception rendering as `"boom"`. -/
def setAlwaysBoom : SetBehaviour := fun _ _ => some "boom"

/-- The example entry of lines 88-92. -/
def exampleEntry : Dict :=
  [("message_id", Value.str "example_001"),
   ("content", Value.str "Sample log entry for testing"),
   ("metadata", Value.obj [("source", Value.str "test"),
                           ("type", Value.str "example")])]

/-- The example entry with one extra, unrelated key. -/
def entryExtraKey : Dict := exampleEntry ++ [("extra", Value.str "ignored")]

/-- An entry supplying a vector `[0.1, 0.2]`. -/
def entryWithVector : Dict :=
  [("message_id", Value.str "vec_001"),
   ("content", Value.str "has a vector"),
   ("metadata", Value.obj []),
   ("vector", Value.arr [Value.num (1/10), Value.num (2/10)])]

/-- The entry `"bad_id"` of the write-failure scenario. -/
def entryBadId : Dict :=
  [("message_id", Value.str "bad_id"),
   ("content", Value.str "will fail"),
   ("metadata", Value.obj [])]

/-- An entry with no `message_id` field. -/
def entryNoId : Dict := [("content", Value.str "orphan")]

/-- An entry ingested twice in the duplicate-id scenario. -/
def entryDup : Dict :=
  [("message_id", Value.str "dup_001"),
   ("content", Value.str "dup"),
   ("metadata", Value.obj [])]

/-! Claim theorems. -/

/-- C2: for every store behaviour, environment, clock and entry,
`ingest_log_entry` raises `NameError` for the unbound name `firestore` while
constructing the payload: the name is bound only as a local inside
`get_firestore_client` and never at module scope, so the call never returns
`True` or `False` normally, prints nothing, and performs no write — the
`try` block around `doc_ref.set` is never reached. -/
theorem ingest_always_raises_nameError (setBehaviour : SetBehaviour)
    (env : Env) (clock : Clock) (entry_data : Dict) :
    ingest_log_entry setBehaviour env clock entry_data =
      { outcome := Except.error (PyError.nameError "firestore"),
        printed := [], writes := [] } := rfl

/-- C2, witnessed at a concrete input: the example entry, a store that never
raises, the empty environment and a fixed clock. -/
theorem ingest_always_raises_nameError_witness :
    ingest_log_entry setNeverRaises envEmpty clock0 exampleEntry =
      { outcome := Except.error (PyError.nameError "firestore"),
        printed := [], writes := [] } :=
  ingest_always_raises_nameError setNeverRaises envEmpty clock0 exampleEntry

/-- C1 (code bug): the claim describes the payload `ingest_log_entry`
builds, but on the entry supplying `vector = [0.1, 0.2]` (as on every other
entry) the payload dict literal raises `NameError` at its `indexed_at`
value, so no payload containing the claimed fields is ever built and
nothing is written. -/
theorem vector_entry_payload_never_built :
    ingest_log_entry setNeverRaises envEmpty clock0 entryWithVector =
      { outcome := Except.error (PyError.nameError "firestore"),
        printed := [], writes := [] } := rfl

/-- C3 (code bug): with a store whose `set` raises `"boom"`, ingesting the
entry `"bad_id"` never reaches `doc_ref.set`: the `NameError` from the
payload construction propagates uncaught, no `✗ Failed to ingest bad_id`
diagnostic is printed, and no boolean failure is returned. -/
theorem write_failure_never_caught :
    ingest_log_entry setAlwaysBoom envEmpty clock0 entryBadId =
      { outcome := Except.error (PyError.nameError "firestore"),
        printed := [], writes := [] } := rfl

/-- C4 (code bug): when the store client is constructed successfully, the
process does not complete normally with exit code 0 — the first
`ingest_log_entry` call raises `NameError`, which escapes `main` and aborts
the process with a non-zero status. -/
theorem run_with_client_never_exits_zero :
    (main ClientInit.ok setNeverRaises envEmpty clock0).outcome =
      ProcOutcome.uncaught (PyError.nameError "firestore") := rfl

/-- C6 (code bug): ingesting the same entry (`message_id = "dup_001"`)
twice performs no write at all — both calls abort with `NameError` before
`doc_ref.set` — so afterwards zero documents, not exactly one, exist at the
path derived from the collection path and the message id. -/
theorem duplicate_ingest_writes_nothing :
    (ingest_log_entry setNeverRaises envEmpty clock0 entryDup).writes ++
      (ingest_log_entry setNeverRaises envEmpty clock1 entryDup).writes =
      [] := rfl

/-- C8 (code bug): with both environment variables unset and a store that
never raises, the run over the example batch writes nothing — in particular
nothing at `artifacts/default-app-id/public/data/knowledge_buckets/example_001`
— and aborts with an uncaught `NameError` instead of printing a success
line. -/
theorem example_run_stores_nothing :
    (main ClientInit.ok setNeverRaises envEmpty clock0).writes = [] ∧
      (main ClientInit.ok setNeverRaises envEmpty clock0).outcome =
        ProcOutcome.uncaught (PyError.nameError "firestore") :=
  ⟨rfl, rfl⟩

/-- C9 (code bug): in a run with a successfully constructed client, the
console output is the banner alone: the per-entry `✓`/`✗` line and the
final `<successes>/<total>` summary block are never printed, because the
first `ingest_log_entry` call aborts the run. -/
theorem run_prints_banner_only :
    (main ClientInit.ok setNeverRaises envEmpty clock0).printed =
      banner envEmpty := rfl

/-- C10 (code bug): the claim speaks of the stored payload built by
`ingest_log_entry`, but no payload is ever built: on the example entry and
on the same entry extended with an unrelated extra key, both calls produce
the identical `NameError` abort with no write. -/
theorem extra_key_entry_same_aborted_result :
    ingest_log_entry setNeverRaises envEmpty clock0 entryExtraKey =
        ingest_log_entry setNeverRaises envEmpty clock0 exampleEntry ∧
      (ingest_log_entry setNeverRaises envEmpty clock0 exampleEntry).writes =
        [] ∧
      (ingest_log_entry setNeverRaises envEmpty clock0 exampleEntry).outcome =
        Except.error (PyError.nameError "firestore") :=
  ⟨rfl, rfl, rfl⟩

/-- C5: for any value `A` the environment supplies for `__app_id`, the
computed collection path is `artifacts/A/public/data/knowledge_buckets`. -/
theorem collection_path_from_app_id (A : String) (env : Env)
    (hA : env "__app_id" = some A) :
    COLLECTION_PATH env = "artifacts/" ++ A ++ "/public/data/knowledge_buckets" := by
  unfold COLLECTION_PATH APP_ID
  rw [hA]
  rfl

/-- C5, witnessed on an environment binding `__app_id` to `"myapp"`. -/
theorem collection_path_from_app_id_witness :
    COLLECTION_PATH envApp = "artifacts/myapp/public/data/knowledge_buckets" :=
  collection_path_from_app_id "myapp" envApp rfl

/-- C7: for any entry lacking a `message_id` field, the identifier computed
at line 42 is the synthesized `msg_`-prefixed timestamp string, and that
string is non-empty. -/
theorem missing_id_synthesized_nonempty (clock : Clock) (entry_data : Dict)
    (h : dictGet entry_data "message_id" = none) :
    messageIdOf clock entry_data =
        Value.str ("msg_" ++ clock.timestampRepr) ∧
      ("msg_" ++ clock.timestampRepr) ≠ "" := by
  refine ⟨?_, ?_⟩
  · unfold messageIdOf
    rw [h]
    rfl
  · intro hEq
    have hlen := congrArg String.length hEq
    rw [String.length_append] at hlen
    rw [show ("msg_" : String).length = 4 from rfl] at hlen
    rw [show ("" : String).length = 0 from rfl] at hlen
    omega

/-- C7, witnessed on the concrete entry with no `message_id`. -/
theorem missing_id_synthesized_nonempty_witness :
    messageIdOf clock0 entryNoId =
        Value.str ("msg_" ++ clock0.timestampRepr) ∧
      ("msg_" ++ clock0.timestampRepr) ≠ "" :=
  missing_id_synthesized_nonempty clock0 entryNoId rfl

end AnalyzeLogs
